import Mathlib

/-!
Verification of the iot-weather-forecasting repository against its
natural-language specification.

The development shallowly embeds the parts of the code that the claims
are about:

* `src/gateway/mqtt_gateway.py` — the `on_message` callback: JSON decode
  with a catch-all handler, field defaulting, and the CSV append path.
* `src/dashboard/app_streamlit.py` — `load_data` (the read side of the
  durable store), the five-element MQTT live buffer, and the retrain
  button branch.
* `src/ml/train_model.py` — column validation, numeric coercion and row
  filtering, the minimum-row check, the train/test split, and artifact
  persistence.

External libraries (pandas, scikit-learn, numpy) are modelled from their
documented behavior where a call crosses into them; each such definition
says so in its doc comment.  Machine floats never matter to the claims
settled here, so numeric cells are carried as integers: the claims are
about presence, counting, ordering, and control flow, never about float
arithmetic.
-/

namespace IotWeather

/-! ## Gateway: message normalization and the append path
Embeds `src/gateway/mqtt_gateway.py` lines 43-64 (`on_message`). -/

/-- State of one key in a decoded JSON object: the key can be absent, be
present with the JSON value null, or be present with a value.  The
distinction matters because Python `dict.get(key, default)` applies the
default only when the key is absent; a key present with null yields None
past the default. -/
inductive JsonField (α : Type) where
  | absent
  | null
  | val (a : α)
deriving DecidableEq

/-- Python `data.get(key, default)`: the default fires only for an absent
key; a key present with JSON null comes back as None, which pandas then
writes as an empty cell. -/
def dictGetD (f : JsonField String) (default : String) : Option String :=
  match f with
  | JsonField.absent => some default
  | JsonField.null => none
  | JsonField.val s => some s

/-- A decoded JSON payload on topic `weather/data`, restricted to the seven
recognized keys.  Timestamp and location keys carry the full
absent/null/value distinction because their `data.get` calls have a
default.  The five numeric `data.get(key)` calls have no default, so an
absent key and a null value both come back as None and are not
distinguished: `none` covers both.  Numeric values are carried as integers
(the claims never involve float arithmetic). -/
structure JsonObj where
  timestamp : JsonField String
  temperature : Option Int
  humidity : Option Int
  pressure : Option Int
  wind_speed : Option Int
  rainfall : Option Int
  location : JsonField String
deriving DecidableEq

/-- An inbound MQTT message as seen by `on_message`: either the payload
decodes as a JSON object, or `payload.decode` / `json.loads` raises, which
the embedding records as `undecodable` with the raw text. -/
inductive Msg where
  | undecodable (raw : String)
  | obj (o : JsonObj)
deriving DecidableEq

/-- Is the message one that decodes to a JSON object? -/
def isDecodedMsg : Msg → Bool
  | Msg.obj _ => true
  | Msg.undecodable _ => false

/-- One row of `data/raw/weather_data.csv` as written by the gateway.
The `record` dict of `on_message` lines 49-57: every cell is present in the
row, but any cell can be empty (`none`), because `data.get` yields None
both for the defaultless numeric keys and for a timestamp or location key
present with JSON null, and pandas writes None as an empty cell. -/
structure CsvRow where
  timestamp : Option String
  temperature : Option Int
  humidity : Option Int
  pressure : Option Int
  wind_speed : Option Int
  rainfall : Option Int
  location : Option String
deriving DecidableEq

/-- The record built by `on_message` lines 49-57: `data.get` with defaults
for timestamp and location, without for the numeric keys.  `now` stands for
`datetime.utcnow().isoformat()` at receipt time. -/
def normalizeRecord (now : String) (o : JsonObj) : CsvRow :=
  { timestamp := dictGetD o.timestamp now
    temperature := o.temperature
    humidity := o.humidity
    pressure := o.pressure
    wind_speed := o.wind_speed
    rainfall := o.rainfall
    location := dictGetD o.location "unknown" }

/-- Result of normalizing one message: the specification names this the
Message Normalizer.  A decode failure lands in the `except` handler of
`on_message` (logged and dropped), embedded as the `rejected` variant. -/
inductive NormResult where
  | rejected (raw : String)
  | record (r : CsvRow)
deriving DecidableEq

/-- The normalization portion of `on_message` (lines 44-57): decode failure
is caught by the handler, a decoded object is coerced to a full record with
defaults for `timestamp` and `location`. -/
def normalize (now : String) (msg : Msg) : NormResult :=
  match msg with
  | Msg.undecodable raw => NormResult.rejected raw
  | Msg.obj o => NormResult.record (normalizeRecord now o)

/-- State transition of the durable store performed by one `on_message`
call (lines 43-64): the store file is a list of committed rows (the header
is implicit).  A rejected message leaves the file unchanged; a decoded one
appends exactly one whole row via `df.to_csv(..., mode="a")`. -/
def on_message (now : String) (file : List CsvRow) (msg : Msg) : List CsvRow :=
  match normalize now msg with
  | NormResult.rejected _ => file
  | NormResult.record r => file ++ [r]

/-! ## Dashboard read side
Embeds `src/dashboard/app_streamlit.py` lines 23-33 (`load_data`). -/

/-- Numeric value of a digit character. -/
def digitVal (c : Char) : Nat := c.toNat - 48

/-- Reads a digit string as a number. -/
def digitsToNat (cs : List Char) : Nat := cs.foldl (fun a c => 10 * a + digitVal c) 0

/-- Modelled from the external library pandas: `pd.to_datetime(x,
errors="coerce")` maps a string that fails to parse as a datetime to NaT,
which `dropna` then removes.  The model is restricted to the ISO shape
`YYYY-MM-DDTHH:MM:SS` that this pipeline produces; the parsed value is the
digit string read as a number, which preserves chronological order on that
shape.  Anything else fails to parse. -/
def parseTimestamp (s : String) : Option Nat :=
  match s.toList with
  | [y1, y2, y3, y4, a, m1, m2, b, d1, d2, t, h1, h2, c, n1, n2, e, s1, s2] =>
      if a == '-' && b == '-' && t == 'T' && c == ':' && e == ':'
          && ([y1, y2, y3, y4, m1, m2, d1, d2, h1, h2, n1, n2, s1, s2].all Char.isDigit) then
        some (digitsToNat [y1, y2, y3, y4, m1, m2, d1, d2, h1, h2, n1, n2, s1, s2])
      else
        none
  | _ => none

/-- The dashboard `load_data` (lines 23-33), the `read_all` of the durable
store: `none` models an entirely absent backing file (returns an empty
frame); otherwise the rows are read, the timestamp column is coerced with
`pd.to_datetime(..., errors="coerce")` — an empty timestamp cell reads as
NaN and coerces to NaT just like an unparseable string — and rows whose
timestamp failed to parse are dropped.  Each returned element pairs the
committed row with its parsed timestamp. -/
def load_data : Option (List CsvRow) → List (CsvRow × Nat)
  | none => []
  | some rows =>
      rows.filterMap (fun r => (r.timestamp.bind parseTimestamp).map (fun ts => (r, ts)))

/-! ## Bounded live buffer
Embeds `src/dashboard/app_streamlit.py` lines 84-91 (`on_mqtt_message`):
`mqtt_buffer.append(payload); mqtt_buffer = mqtt_buffer[-5:]`. -/

/-- One push into the live buffer: append at the tail, then keep the last
five elements (the Python slice `[-5:]`, which keeps the whole list when it
is shorter than five). -/
def pushBuf {α : Type} (buf : List α) (x : α) : List α :=
  let l := buf ++ [x]
  l.drop (l.length - 5)

/-- The poll loop reads `list(mqtt_buffer)`: a copy of the current
contents, contents unchanged. -/
def snapshot {α : Type} (buf : List α) : List α := buf

/-! ## Training pipeline
Embeds `src/ml/train_model.py` (`main`). -/

/-- One CSV cell as the training script sees it after `pd.read_csv`: a
number, an arbitrary string, or an empty cell (NaN). -/
inductive Cell where
  | num (n : Int)
  | str (s : String)
  | empty
deriving DecidableEq

/-- Modelled from the external library pandas: `pd.to_numeric(x,
errors="coerce")` keeps numbers, parses numeric strings, and maps
everything else (including empty cells) to NaN, represented as `none`. -/
def toNumeric : Cell → Option Int
  | Cell.num n => some n
  | Cell.str s => s.toInt?
  | Cell.empty => none

/-- One data row, keyed by column name. -/
abbrev Row := List (String × Cell)

/-- Looks up the cell of a named column; a missing entry reads as an empty
cell (NaN). -/
def getCell (r : Row) (c : String) : Cell :=
  match r.find? (fun p => p.1 == c) with
  | some p => p.2
  | none => Cell.empty

/-- `FEATURES` of `train_model.py` line 14. -/
def FEATURES : List String := ["humidity", "pressure", "wind_speed", "rainfall"]

/-- `TARGET` of `train_model.py` line 15. -/
def TARGET : String := "temperature"

/-- `expected_columns` of `train_model.py` line 31:
`{"timestamp", TARGET, *FEATURES, "device_id"}`. -/
def expected_columns : List String := "timestamp" :: TARGET :: (FEATURES ++ ["device_id"])

/-- The header the gateway writes to `data/raw/weather_data.csv`
(`mqtt_gateway.py` lines 20-30) and the durable store schema of the
specification, section 6. -/
def storeColumns : List String :=
  ["timestamp", "temperature", "humidity", "pressure", "wind_speed", "rainfall", "location"]

/-- The column validation of `train_model.py` lines 31-35:
`expected_columns.issubset(df.columns)`. -/
def columnsValid (cols : List String) : Bool :=
  expected_columns.all (fun c => cols.contains c)

/-- A row survives steps 4-5 of `train_model.py` (numeric coercion of the
four features and the target, then `dropna` on those columns) exactly when
each of those five cells coerces to a number. -/
def validRow (r : Row) : Bool :=
  (FEATURES ++ [TARGET]).all (fun c => (toNumeric (getCell r c)).isSome)

/-- A CSV dataset: the header columns and the data rows. -/
structure Dataset where
  columns : List String
  rows : List Row
deriving DecidableEq

/-- The rows remaining after coercion and `dropna` (steps 4-5). -/
def cleanRows (d : Dataset) : List Row := d.rows.filter validRow

/-- A linear-congruential step, used to model the fixed-seed pseudo-random
choices of the split. -/
def lcg (s : Nat) : Nat := (1103515245 * s + 12345) % 2147483648

/-- Removes the element at the given index, returning it and the rest. -/
def pickOut {α : Type} : Nat → List α → Option (α × List α)
  | _, [] => none
  | 0, x :: xs => some (x, xs)
  | n + 1, x :: xs =>
      match pickOut n xs with
      | some (y, ys) => some (y, x :: ys)
      | none => none

/-- Fuel-indexed Fisher-Yates style shuffle driven by `lcg`. -/
def shuffleGo {α : Type} : Nat → List α → Nat → List α
  | _, xs, 0 => xs
  | _, [], _ + 1 => []
  | seed, x :: l, fuel + 1 =>
      match pickOut (seed % (x :: l).length) (x :: l) with
      | some (y, ys) => y :: shuffleGo (lcg seed) ys fuel
      | none => x :: l

/-- Modelled from the external library numpy: `RandomState(42).permutation`
is one fixed, deterministic permutation of the input; which permutation it
is does not matter to any claim, only that it is a length-preserving
permutation determined by the data alone. -/
def shuffle42 {α : Type} (xs : List α) : List α := shuffleGo 42 xs xs.length

/-- Steps 8 of `train_model.py` (lines 54-61): below ten rows both
partitions are the full data; otherwise
`train_test_split(X, y, test_size=0.2, random_state=42)`, which (per the
scikit-learn implementation) permutes the rows with the seeded generator,
takes `ceil(0.2 * n)` of them as the test partition and the rest as the
train partition.  Returns `(train, test)`. -/
def splitData {α : Type} (xs : List α) : List α × List α :=
  if xs.length < 10 then (xs, xs)
  else
    let nTest := (xs.length + 4) / 5
    let shuffled := shuffle42 xs
    (shuffled.drop nTest, shuffled.take nTest)

/-- The persisted regression artifact.  Modelled from the external library
scikit-learn: `LinearRegression.fit` is a deterministic function of its
training data, so the artifact is represented by the rows it was fitted
from. -/
structure Artifact where
  fittedFrom : List Row
deriving DecidableEq

/-- Outcome of one run of `train_model.py` `main`. -/
inductive TrainResult where
  | fileMissing
  | columnMismatch (found : List String)
  | insufficientData (n : Nat)
  | trained (trainPart evalPart : List Row)
deriving DecidableEq

/-- Control flow of `train_model.py` `main` (lines 18-72): missing data
file, column validation against `expected_columns`, numeric coercion and
`dropna`, the minimum-row check `len(df) < 5`, the split, and training on
the train partition with evaluation on the test partition. -/
def trainMain (fileExists : Bool) (d : Dataset) : TrainResult :=
  if fileExists = false then TrainResult.fileMissing
  else if columnsValid d.columns = false then TrainResult.columnMismatch d.columns
  else
    let clean := cleanRows d
    if clean.length < 5 then TrainResult.insufficientData clean.length
    else
      let parts := splitData clean
      TrainResult.trained parts.1 parts.2

/-- The artifact on disk after a run: `joblib.dump(model, MODEL_PATH)` at
line 72 runs only when `main` reaches the trained outcome; every earlier
exit raises first and leaves the prior artifact in place. -/
def artifactAfter (prior : Option Artifact) : TrainResult → Option Artifact
  | TrainResult.trained tr _ => some { fittedFrom := tr }
  | _ => prior

/-! ## Dashboard retrain branch
Embeds `src/dashboard/app_streamlit.py` lines 44-53. -/

/-- The `subprocess.run` result: exit code and captured output. -/
structure RunResult where
  returncode : Int
  stdout : String
  stderr : String
deriving DecidableEq

/-- A user-visible Streamlit effect emitted by the retrain branch. -/
inductive UiEffect where
  | spinner (message : String)
  | successBanner (message : String)
  | errorBanner (message : String)
  | textBlock (s : String)
  | rerun
deriving DecidableEq

/-- Is the effect an error surface (`st.error`)? -/
def isErrorBanner : UiEffect → Bool
  | UiEffect.errorBanner _ => true
  | _ => false

/-- The retrain button branch (lines 44-53) as the sequence of
user-visible effects it emits, as a function of the completed subprocess
result: spinner, then `st.success("Model retrained successfully!")`, then
`st.text(result.stdout)`, then `st.rerun()`.  The code never reads
`result.returncode` or `result.stderr`. -/
def retrainAction (result : RunResult) : List UiEffect :=
  [UiEffect.spinner "Training model...",
   UiEffect.successBanner "Model retrained successfully!",
   UiEffect.textBlock result.stdout,
   UiEffect.rerun]

/-! ## Concrete values used by counterexamples and witnesses -/

/-- A receipt time in the ISO shape the gateway produces. -/
def now0 : String := "2024-01-01T00:00:00"

/-- A decoded payload in which every key is absent (the JSON text `{}`
decodes fine, so the happy path of `on_message` runs). -/
def emptyObj : JsonObj :=
  { timestamp := JsonField.absent, temperature := none, humidity := none, pressure := none
    wind_speed := none, rainfall := none, location := JsonField.absent }

/-- A fully populated, well-formed payload. -/
def goodObj : JsonObj :=
  { timestamp := JsonField.val "2024-01-01T00:00:01", temperature := some 20
    humidity := some 60, pressure := some 1012, wind_speed := some 3, rainfall := some 0
    location := JsonField.val "A" }

/-- A payload whose timestamp value is not a parseable datetime. -/
def badTsObj : JsonObj :=
  { goodObj with timestamp := JsonField.val "garbage" }

/-- A payload whose timestamp and location keys are present with JSON
null: `data.get` returns the null past the default, so the gateway
persists empty timestamp and location cells. -/
def nullTsObj : JsonObj :=
  { goodObj with timestamp := JsonField.null, location := JsonField.null }

/-- A committed row with a parseable timestamp. -/
def goodRow : CsvRow := normalizeRecord now0 goodObj

/-- A committed row whose timestamp cell does not parse. -/
def badTsRow : CsvRow := normalizeRecord now0 badTsObj

/-- A fully valid training row carrying the given numeric cells, under the
schema `train_model.py` expects (with a `device_id` column). -/
def mkDeviceRow (t h p w r : Int) : Row :=
  [("timestamp", Cell.str now0), ("temperature", Cell.num t), ("humidity", Cell.num h),
   ("pressure", Cell.num p), ("wind_speed", Cell.num w), ("rainfall", Cell.num r),
   ("device_id", Cell.str "dev1")]

/-- The header of a dataset that satisfies the validation of
`train_model.py`. -/
def deviceColumns : List String :=
  ["timestamp", "temperature", "humidity", "pressure", "wind_speed", "rainfall", "device_id"]

/-- A dataset passing column validation with four valid rows and one row
whose target cell is empty (dropped by `dropna`). -/
def dataset4 : Dataset :=
  { columns := deviceColumns
    rows := [mkDeviceRow 1 50 1000 2 0, mkDeviceRow 2 51 1001 3 1, mkDeviceRow 3 52 1002 4 0,
             mkDeviceRow 4 53 1003 5 1,
             ("temperature", Cell.empty) :: (mkDeviceRow 9 54 1004 6 0).tail] }

/-- A dataset passing column validation with exactly five valid rows. -/
def dataset5 : Dataset :=
  { columns := deviceColumns
    rows := [mkDeviceRow 1 50 1000 2 0, mkDeviceRow 2 51 1001 3 1, mkDeviceRow 3 52 1002 4 0,
             mkDeviceRow 4 53 1003 5 1, mkDeviceRow 5 54 1004 6 0] }

/-- A fully valid training row under the store schema the gateway writes
(with a `location` column instead of `device_id`). -/
def mkStoreRow (t h p w r : Int) : Row :=
  [("timestamp", Cell.str now0), ("temperature", Cell.num t), ("humidity", Cell.num h),
   ("pressure", Cell.num p), ("wind_speed", Cell.num w), ("rainfall", Cell.num r),
   ("location", Cell.str "A")]

/-- A dataset whose header is exactly the durable store schema and whose
six rows are all fully numeric and valid. -/
def storeDatasetExample : Dataset :=
  { columns := storeColumns
    rows := [mkStoreRow 1 50 1000 2 0, mkStoreRow 2 51 1001 3 1, mkStoreRow 3 52 1002 4 0,
             mkStoreRow 4 53 1003 5 1, mkStoreRow 5 54 1004 6 0, mkStoreRow 6 55 1005 7 1] }

/-! ## Helper lemmas -/

/-- Folding pushes over the empty buffer keeps exactly the last five
elements in insertion order. -/
theorem foldl_pushBuf {α : Type} (xs : List α) :
    xs.foldl pushBuf [] = xs.drop (xs.length - 5) := by
  induction xs using List.reverseRecOn with
  | nil => rfl
  | append_singleton xs x ih =>
      rw [List.foldl_append, ih]
      show (xs.drop (xs.length - 5) ++ [x]).drop
            ((xs.drop (xs.length - 5) ++ [x]).length - 5) = _
      have h1 : (xs ++ [x]).drop (xs.length - 5) = xs.drop (xs.length - 5) ++ [x] := by
        rw [List.drop_append_eq_append_drop]
        have h0 : xs.length - 5 - xs.length = 0 := by omega
        rw [h0]
        rfl
      rw [← h1, List.drop_drop]
      congr 1
      simp only [List.length_drop, List.length_append, List.length_cons, List.length_nil]
      omega

/-- The length of the store after a serial sequence of `on_message` calls:
one row per decoded message. -/
theorem foldl_on_message_length (now : String) (msgs : List Msg) (file : List CsvRow) :
    (msgs.foldl (on_message now) file).length = file.length + msgs.countP isDecodedMsg := by
  induction msgs generalizing file with
  | nil => simp
  | cons m ms ih =>
      rw [List.foldl_cons, ih, List.countP_cons]
      cases m with
      | undecodable raw => simp [on_message, normalize, isDecodedMsg]
      | obj o =>
          simp only [on_message, normalize, List.length_append, List.length_cons,
            List.length_nil, isDecodedMsg, if_true]
          omega

/-- The rows surviving `load_data` are exactly the committed rows whose
timestamp parses. -/
theorem load_data_map_fst (rows : List CsvRow) :
    (load_data (some rows)).map Prod.fst
      = rows.filter (fun r => (r.timestamp.bind parseTimestamp).isSome) := by
  induction rows with
  | nil => rfl
  | cons r rs ih =>
      simp only [load_data] at ih ⊢
      cases h : r.timestamp.bind parseTimestamp <;>
        simp [List.filterMap_cons, List.filter_cons, h, ih, -Option.map_bind]

/-- `load_data` returns as many rows as committed rows with parseable
timestamps. -/
theorem load_data_length (rows : List CsvRow) :
    (load_data (some rows)).length
      = rows.countP (fun r => (r.timestamp.bind parseTimestamp).isSome) := by
  have h := congrArg List.length (load_data_map_fst rows)
  rw [List.length_map] at h
  rw [h, List.countP_eq_length_filter]

/-- Every pair returned by `load_data` carries the parse of its own
timestamp cell. -/
theorem load_data_parses (rows : List CsvRow) :
    ∀ p ∈ load_data (some rows), p.1.timestamp.bind parseTimestamp = some p.2 := by
  induction rows with
  | nil => intro p hp; simp [load_data] at hp
  | cons r rs ih =>
      intro p hp
      simp only [load_data, List.filterMap_cons] at hp
      cases h : r.timestamp.bind parseTimestamp with
      | none =>
          rw [h] at hp
          simp only [Option.map_none'] at hp
          exact ih p hp
      | some ts =>
          rw [h] at hp
          simp only [Option.map_some'] at hp
          rcases List.mem_cons.mp hp with hp | hp
          · subst hp; simpa using h
          · exact ih p hp

/-- `pickOut` at an index inside the list succeeds and returns a
permutation of the input. -/
theorem pickOut_eq_some {α : Type} :
    ∀ (r : Nat) (xs : List α), r < xs.length →
      ∃ y ys, pickOut r xs = some (y, ys) ∧ xs.Perm (y :: ys) := by
  intro r
  induction r with
  | zero =>
      intro xs h
      match xs with
      | x :: l => exact ⟨x, l, rfl, List.Perm.refl _⟩
  | succ n ih =>
      intro xs h
      match xs with
      | x :: l =>
          have hl : n < l.length := by simpa using Nat.lt_of_succ_lt_succ h
          obtain ⟨y, ys, hpick, hperm⟩ := ih l hl
          refine ⟨y, x :: ys, ?_, ?_⟩
          · simp [pickOut, hpick]
          · exact (hperm.cons x).trans (List.Perm.swap y x ys)

/-- With enough fuel the shuffle is a permutation of its input. -/
theorem shuffleGo_perm {α : Type} :
    ∀ (fuel seed : Nat) (xs : List α), xs.length ≤ fuel →
      (shuffleGo seed xs fuel).Perm xs := by
  intro fuel
  induction fuel with
  | zero =>
      intro seed xs h
      cases xs <;> simp [shuffleGo]
  | succ f ih =>
      intro seed xs h
      match xs with
      | [] => simp [shuffleGo]
      | x :: l =>
          have hr : seed % (x :: l).length < (x :: l).length :=
            Nat.mod_lt _ (by simp)
          obtain ⟨y, ys, hpick, hperm⟩ := pickOut_eq_some _ _ hr
          have hys : ys.length ≤ f := by
            have hlen := hperm.length_eq
            simp only [List.length_cons] at hlen h
            omega
          simp only [shuffleGo, hpick]
          exact ((ih (lcg seed) ys hys).cons y).trans hperm.symm

/-- The fixed-seed shuffle is a permutation of its input. -/
theorem shuffle42_perm {α : Type} (xs : List α) : (shuffle42 xs).Perm xs :=
  shuffleGo_perm xs.length 42 xs (Nat.le_refl _)

/-! ## Claim theorems -/

/-- C1, counterexample.  The claim says that after N appends `read_all`
returns exactly N records, each with all seven fields populated.  Both
conjuncts fail at concrete inputs, already with serial appends: a single
append of the decodable payload with no keys yields one returned record
whose temperature cell is absent; and two appends, the second carrying an
unparseable timestamp value, yield a store of two rows of which `read_all`
returns only one. -/
theorem c1_counterexample :
    ((load_data (some (on_message now0 [] (Msg.obj emptyObj)))).map
        (fun p => p.1.temperature)) = [none] ∧
    (on_message now0 (on_message now0 [] (Msg.obj goodObj)) (Msg.obj badTsObj)).length = 2 ∧
    (load_data (some (on_message now0 (on_message now0 [] (Msg.obj goodObj))
        (Msg.obj badTsObj)))).length = 1 := by
  refine ⟨?_, ?_, ?_⟩ <;> rfl

/-- C1, amended.  For every sequence of appends executed serially (the MQTT
client delivers callbacks on a single thread), the store gains exactly one
whole row per decoded message and none for an undecodable one, and
`read_all` afterwards returns exactly the committed rows whose timestamp
cell is populated and parses validly. -/
theorem c1_amended_serial (now : String) (msgs : List Msg) :
    (msgs.foldl (on_message now) []).length = msgs.countP isDecodedMsg ∧
    (load_data (some (msgs.foldl (on_message now) []))).length
      = (msgs.foldl (on_message now) []).countP
          (fun r => (r.timestamp.bind parseTimestamp).isSome) := by
  constructor
  · simpa using foldl_on_message_length now msgs []
  · exact load_data_length _

/-- C1, witness for the amended claim: three serial appends, one of them
undecodable and one with an unparseable timestamp, leave two committed rows
of which `read_all` returns one. -/
theorem c1_amended_serial_witness :
    ([Msg.obj goodObj, Msg.undecodable "not json", Msg.obj badTsObj].foldl
        (on_message now0) []).length = 2 ∧
    (load_data (some ([Msg.obj goodObj, Msg.undecodable "not json", Msg.obj badTsObj].foldl
        (on_message now0) []))).length = 1 := by
  have h := c1_amended_serial now0 [Msg.obj goodObj, Msg.undecodable "not json", Msg.obj badTsObj]
  exact ⟨h.1.trans (by rfl), h.2.trans (by rfl)⟩

/-- C2, counterexample.  The claim says every persisted record has all
seven fields with syntactically valid types and that a violating message is
rejected before persistence.  The gateway persists the decodable payload
with no keys as a full row whose five numeric cells are all absent, and the
payload whose timestamp and location keys carry JSON null as a row whose
timestamp and location cells are both empty: nothing is rejected and both
rows are written. -/
theorem c2_counterexample :
    on_message now0 [] (Msg.obj emptyObj) =
      [{ timestamp := some now0, temperature := none, humidity := none, pressure := none
         wind_speed := none, rainfall := none, location := some "unknown" }] ∧
    on_message now0 [] (Msg.obj nullTsObj) =
      [{ timestamp := none, temperature := some 20, humidity := some 60, pressure := some 1012
         wind_speed := some 3, rainfall := some 0, location := none }] := by
  exact ⟨rfl, rfl⟩

/-- C2, amended.  Every persisted record has all seven cells present, but
any cell can be unpopulated: `timestamp` and `location` default to the
receipt time and to "unknown" only when the key is absent, while a key
present with JSON null persists an empty cell, and the five numeric cells
are persisted exactly as received and may be absent.  Only a message
failing structured decode is rejected before persistence, and an append
always writes exactly one whole row. -/
theorem c2_amended_tolerant (now : String) (file : List CsvRow) (raw : String) (o : JsonObj) :
    on_message now file (Msg.undecodable raw) = file ∧
    on_message now file (Msg.obj o) = file ++ [normalizeRecord now o] ∧
    (o.timestamp = JsonField.absent → (normalizeRecord now o).timestamp = some now) ∧
    (o.timestamp = JsonField.null → (normalizeRecord now o).timestamp = none) ∧
    (∀ s, o.timestamp = JsonField.val s → (normalizeRecord now o).timestamp = some s) ∧
    (o.location = JsonField.absent → (normalizeRecord now o).location = some "unknown") ∧
    (o.location = JsonField.null → (normalizeRecord now o).location = none) ∧
    (∀ s, o.location = JsonField.val s → (normalizeRecord now o).location = some s) ∧
    (normalizeRecord now o).temperature = o.temperature ∧
    (normalizeRecord now o).humidity = o.humidity ∧
    (normalizeRecord now o).pressure = o.pressure ∧
    (normalizeRecord now o).wind_speed = o.wind_speed ∧
    (normalizeRecord now o).rainfall = o.rainfall := by
  refine ⟨rfl, rfl, ?_, ?_, ?_, ?_, ?_, ?_, rfl, rfl, rfl, rfl, rfl⟩
  · intro h; simp [normalizeRecord, dictGetD, h]
  · intro h; simp [normalizeRecord, dictGetD, h]
  · intro s h; simp [normalizeRecord, dictGetD, h]
  · intro h; simp [normalizeRecord, dictGetD, h]
  · intro h; simp [normalizeRecord, dictGetD, h]
  · intro s h; simp [normalizeRecord, dictGetD, h]

/-- C2, witness for the amended claim at concrete inputs covering the
rejection branch and all three key states for timestamp and location. -/
theorem c2_amended_tolerant_witness :
    on_message now0 [goodRow] (Msg.undecodable "not json") = [goodRow] ∧
    on_message now0 [goodRow] (Msg.obj emptyObj)
      = [goodRow, normalizeRecord now0 emptyObj] ∧
    (normalizeRecord now0 emptyObj).timestamp = some now0 ∧
    (normalizeRecord now0 emptyObj).location = some "unknown" ∧
    (normalizeRecord now0 nullTsObj).timestamp = none ∧
    (normalizeRecord now0 nullTsObj).location = none ∧
    (normalizeRecord now0 goodObj).timestamp = some "2024-01-01T00:00:01" ∧
    (normalizeRecord now0 goodObj).location = some "A" := by
  have he := c2_amended_tolerant now0 [goodRow] "not json" emptyObj
  have hn := c2_amended_tolerant now0 [goodRow] "not json" nullTsObj
  have hg := c2_amended_tolerant now0 [goodRow] "not json" goodObj
  exact ⟨he.1, he.2.1, he.2.2.1 rfl, he.2.2.2.2.2.1 rfl,
    hn.2.2.2.1 rfl, hn.2.2.2.2.2.2.1 rfl,
    hg.2.2.2.2.1 "2024-01-01T00:00:01" rfl, hg.2.2.2.2.2.2.2.1 "A" rfl⟩

/-- C5: the live buffer bound.  After each push the snapshot length is at
most five, and once five or more pushes happened the snapshot is exactly
the five most recently pushed elements, oldest first. -/
theorem c5_buffer_bound {α : Type} (xs : List α) :
    (∀ n, (snapshot ((xs.take n).foldl pushBuf [])).length ≤ 5) ∧
    (5 ≤ xs.length →
      snapshot (xs.foldl pushBuf []) = xs.drop (xs.length - 5) ∧
      (snapshot (xs.foldl pushBuf [])).length = 5) := by
  constructor
  · intro n
    rw [snapshot, foldl_pushBuf]
    simp only [List.length_drop]
    omega
  · intro h
    rw [snapshot, foldl_pushBuf]
    refine ⟨rfl, ?_⟩
    simp only [List.length_drop]
    omega

/-- C5, witness: seven pushes leave the last five, oldest first. -/
theorem c5_buffer_bound_witness :
    5 ≤ ([1, 2, 3, 4, 5, 6, 7] : List Nat).length ∧
    snapshot (([1, 2, 3, 4, 5, 6, 7] : List Nat).foldl pushBuf []) = [3, 4, 5, 6, 7] := by
  refine ⟨by decide, ?_⟩
  have h := ((c5_buffer_bound ([1, 2, 3, 4, 5, 6, 7] : List Nat)).2 (by decide)).1
  exact h.trans (by decide)

/-- C6: normalizer tolerance.  A payload failing structured decode yields
the rejection variant (the embedding is a total function, so nothing is
raised to the caller); a decoded payload yields a record, with a missing
`location` key defaulting to "unknown" and a missing `timestamp` key
defaulting to the receipt time. -/
theorem c6_normalizer_tolerance (now raw : String) (o : JsonObj) :
    normalize now (Msg.undecodable raw) = NormResult.rejected raw ∧
    normalize now (Msg.obj o) = NormResult.record (normalizeRecord now o) ∧
    (o.location = JsonField.absent → (normalizeRecord now o).location = some "unknown") ∧
    (o.timestamp = JsonField.absent → (normalizeRecord now o).timestamp = some now) := by
  refine ⟨rfl, rfl, ?_, ?_⟩ <;> intro h <;> simp [normalizeRecord, dictGetD, h]

/-- C6, witness at concrete inputs: an undecodable payload is rejected, and
the empty decoded payload gets the documented defaults. -/
theorem c6_normalizer_tolerance_witness :
    normalize now0 (Msg.undecodable "not json") = NormResult.rejected "not json" ∧
    (normalizeRecord now0 emptyObj).location = some "unknown" ∧
    (normalizeRecord now0 emptyObj).timestamp = some now0 := by
  have h := c6_normalizer_tolerance now0 "not json" emptyObj
  exact ⟨h.1, h.2.2.1 rfl, h.2.2.2 rfl⟩

/-- C9: `read_all` on an absent backing file returns the empty sequence;
on a present file it returns exactly the committed rows whose timestamp
cell is populated and parses validly, silently dropping the others, and
every returned element carries the successful parse of its own
timestamp. -/
theorem c9_read_all_filter (rows : List CsvRow) :
    load_data none = [] ∧
    (load_data (some rows)).map Prod.fst
      = rows.filter (fun r => (r.timestamp.bind parseTimestamp).isSome) ∧
    (∀ p ∈ load_data (some rows), p.1.timestamp.bind parseTimestamp = some p.2) :=
  ⟨rfl, load_data_map_fst rows, load_data_parses rows⟩

/-- C9, witness: a present file with one parseable and one unparseable
timestamp returns exactly the parseable row; an absent file returns the
empty sequence. -/
theorem c9_read_all_filter_witness :
    load_data none = [] ∧
    (load_data (some [goodRow, badTsRow])).map Prod.fst = [goodRow] := by
  have h := c9_read_all_filter [goodRow, badTsRow]
  exact ⟨h.1, h.2.1.trans (by rfl)⟩

/-- C3: the training column validation requires a `device_id` column that
the durable store schema does not have (the store has `location`), so a
dataset whose columns are exactly the store schema is rejected with a
column mismatch even when it holds plenty of fully valid rows: training
never proceeds to coercion and filtering on the data the gateway itself
writes. -/
theorem c3_requires_device_id :
    columnsValid storeColumns = false ∧
    expected_columns.contains "device_id" = true ∧
    storeColumns.contains "device_id" = false ∧
    storeColumns.contains "location" = true ∧
    (cleanRows storeDatasetExample).length = 6 ∧
    trainMain true storeDatasetExample = TrainResult.columnMismatch storeColumns := by
  refine ⟨?_, ?_, ?_, ?_, ?_, ?_⟩ <;> decide

/-- C4: the retrain branch never surfaces a failure.  Evaluated at a
subprocess result with a non-zero exit code and an error on stderr, the
branch still emits the unconditional success banner and the stdout text,
and for every possible subprocess result it emits no error banner at all:
`result.returncode` and `result.stderr` are never consulted. -/
theorem c4_success_banner_on_failure :
    retrainAction { returncode := 1, stdout := ""
                    stderr := "ValueError: Not enough data to train model." } =
      [UiEffect.spinner "Training model...",
       UiEffect.successBanner "Model retrained successfully!",
       UiEffect.textBlock "", UiEffect.rerun] ∧
    (∀ result : RunResult, (retrainAction result).filter isErrorBanner = []) :=
  ⟨rfl, fun _ => rfl⟩

/-- C7: on a dataset passing column validation, fewer than five valid rows
after coercion and filtering signal insufficient data and leave any prior
artifact untouched; exactly five valid rows train successfully (with both
partitions equal to the full clean data, since five is below the split
threshold) and persist an artifact. -/
theorem c7_insufficient_data_boundary (prior : Option Artifact) (d : Dataset)
    (hcols : columnsValid d.columns = true) :
    ((cleanRows d).length < 5 →
      trainMain true d = TrainResult.insufficientData (cleanRows d).length ∧
      artifactAfter prior (trainMain true d) = prior) ∧
    ((cleanRows d).length = 5 →
      trainMain true d = TrainResult.trained (cleanRows d) (cleanRows d) ∧
      artifactAfter prior (trainMain true d) = some { fittedFrom := cleanRows d }) := by
  have hmain : trainMain true d =
      (if (cleanRows d).length < 5 then TrainResult.insufficientData (cleanRows d).length
       else TrainResult.trained (splitData (cleanRows d)).1 (splitData (cleanRows d)).2) := by
    simp [trainMain, hcols]
  constructor
  · intro h5
    rw [hmain, if_pos h5]
    exact ⟨rfl, rfl⟩
  · intro h5
    have hnotlt : ¬ (cleanRows d).length < 5 := by omega
    have hsplit : splitData (cleanRows d) = (cleanRows d, cleanRows d) := by
      simp [splitData]
      omega
    rw [hmain, if_neg hnotlt, hsplit]
    exact ⟨rfl, rfl⟩

/-- C7, witness: a valid-columned dataset with four valid rows signals
insufficient data and keeps the prior artifact; one with five valid rows
trains and persists an artifact fitted from those rows. -/
theorem c7_insufficient_data_boundary_witness :
    trainMain true dataset4 = TrainResult.insufficientData 4 ∧
    artifactAfter (some { fittedFrom := [] }) (trainMain true dataset4)
      = some { fittedFrom := [] } ∧
    trainMain true dataset5 = TrainResult.trained (cleanRows dataset5) (cleanRows dataset5) ∧
    artifactAfter (some { fittedFrom := [] }) (trainMain true dataset5)
      = some { fittedFrom := cleanRows dataset5 } := by
  have h4 := (c7_insufficient_data_boundary (some { fittedFrom := [] }) dataset4
    (by decide)).1 (by decide)
  have h5 := (c7_insufficient_data_boundary (some { fittedFrom := [] }) dataset5
    (by decide)).2 (by decide)
  exact ⟨h4.1.trans (by decide), h4.2, h5.1, h5.2⟩

/-- C8: the split boundary.  Below ten rows the train and evaluation
partitions are both the full dataset; at ten or more rows the evaluation
partition takes the ceiling of one fifth of the rows and the train
partition the rest, the two together being a permutation of the dataset
produced by the fixed-seed shuffle; and the split is a deterministic
function of the dataset, so repeated training on the same data yields the
same split. -/
theorem c8_split_boundary {α : Type} (rows rows2 : List α) :
    (rows.length < 10 → splitData rows = (rows, rows)) ∧
    (10 ≤ rows.length →
      (splitData rows).2.length = (rows.length + 4) / 5 ∧
      (splitData rows).1.length = rows.length - (rows.length + 4) / 5 ∧
      ((splitData rows).2 ++ (splitData rows).1).Perm rows) ∧
    (rows = rows2 → splitData rows = splitData rows2) := by
  refine ⟨fun h => by simp [splitData, h], fun h => ?_, fun h => by rw [h]⟩
  have hnot : ¬ rows.length < 10 := by omega
  have hperm : (shuffle42 rows).Perm rows := shuffle42_perm rows
  have hlen : (shuffle42 rows).length = rows.length := hperm.length_eq
  have hn : (rows.length + 4) / 5 ≤ rows.length := by omega
  simp only [splitData, if_neg hnot]
  refine ⟨?_, ?_, ?_⟩
  · simp only [List.length_take, hlen]
    omega
  · simp only [List.length_drop, hlen]
  · rw [List.take_append_drop]
    exact hperm

/-- C8, witness: nine rows reuse the full data for both partitions; ten
rows get an evaluation partition of two rows and a train partition of
eight. -/
theorem c8_split_boundary_witness :
    splitData ([0, 1, 2, 3, 4, 5, 6, 7, 8] : List Nat)
      = ([0, 1, 2, 3, 4, 5, 6, 7, 8], [0, 1, 2, 3, 4, 5, 6, 7, 8]) ∧
    (splitData ([0, 1, 2, 3, 4, 5, 6, 7, 8, 9] : List Nat)).2.length = 2 ∧
    (splitData ([0, 1, 2, 3, 4, 5, 6, 7, 8, 9] : List Nat)).1.length = 8 := by
  refine ⟨(c8_split_boundary _ ([] : List Nat)).1 (by decide), ?_, ?_⟩
  · have h := ((c8_split_boundary ([0, 1, 2, 3, 4, 5, 6, 7, 8, 9] : List Nat)
      ([] : List Nat)).2.1 (by decide)).1
    exact h.trans (by decide)
  · have h := ((c8_split_boundary ([0, 1, 2, 3, 4, 5, 6, 7, 8, 9] : List Nat)
      ([] : List Nat)).2.1 (by decide)).2.1
    exact h.trans (by decide)

end IotWeather
